import Mathlib

/-!
Verification of the locust-test-gen operation-extraction and code-synthesis
pipeline (src/app/generator.py) against its design specification.

The inbound OpenAPI document is a weakly typed tree; we embed it as the
inductive type Json below.  Python dictionaries are association lists that
preserve insertion order.  Operations of the dynamic language that can raise
(attribute lookups on non-mappings, joining non-strings, iterating
non-iterables) are embedded in the Except monad; pure operations are plain
functions.  Python string methods are modelled over the ASCII range, which is
the range the specification and all documents in the claims exercise.
-/

/-- Embedding of the weakly typed values a parsed JSON/OpenAPI document can
hold: the `Any` side of the source's `Dict[str, Any]`. -/
inductive Json where
  | null : Json
  | bool (b : Bool) : Json
  | num (n : Int) : Json
  | str (s : String) : Json
  | arr (elems : List Json) : Json
  | obj (entries : List (String × Json)) : Json

/-- First-match association-list lookup: Python `d[k]` / `k in d` on a dict
whose insertion order the list preserves. -/
def pyLookup : List (String × Json) → String → Option Json
  | [], _ => none
  | (k, v) :: rest, key => if k = key then some v else pyLookup rest key

/-- Python `d.get(key, default)` on a dict. -/
def pyGetD (entries : List (String × Json)) (key : String) (default : Json) : Json :=
  (pyLookup entries key).getD default

/-- Python `d.get(key)` on a dict (missing keys give `None`). -/
def pyGet (entries : List (String × Json)) (key : String) : Json :=
  pyGetD entries key Json.null

/-- Python truthiness of a document value (`bool(x)`): `None`, `False`, zero,
and empty strings/lists/dicts are falsy. -/
def pyTruthy : Json → Bool
  | Json.null => false
  | Json.bool b => b
  | Json.num n => n != 0
  | Json.str s => !(s == "")
  | Json.arr xs => !xs.isEmpty
  | Json.obj kvs => !kvs.isEmpty

/-- Python `x == "lit"` for a dynamic `x`: only equal strings compare equal
to a string literal. -/
def jsonEqStr (j : Json) (s : String) : Bool :=
  match j with
  | Json.str t => t == s
  | _ => false

/-- ASCII model of `ch.lower()`. -/
def charLower (c : Char) : Char :=
  if 'A' ≤ c ∧ c ≤ 'Z' then Char.ofNat (c.toNat + 32) else c

/-- ASCII model of `ch.upper()`. -/
def charUpper (c : Char) : Char :=
  if 'a' ≤ c ∧ c ≤ 'z' then Char.ofNat (c.toNat - 32) else c

/-- ASCII model of Python `s.lower()`. -/
def pyLower (s : String) : String := ⟨s.data.map charLower⟩

/-- ASCII model of Python `s.upper()`. -/
def pyUpper (s : String) : String := ⟨s.data.map charUpper⟩

/-- Python `s.strip("/")`: remove every leading and trailing occurrence of
the character. -/
def stripChar (a : Char) (s : String) : String :=
  ⟨((s.data.dropWhile (· = a)).reverse.dropWhile (· = a)).reverse⟩

/-- Python `s.replace(a, b)` for one-character patterns. -/
def replaceChar (a b : Char) (s : String) : String :=
  ⟨s.data.map (fun c => if c = a then b else c)⟩

/-- Python `s.replace(a, "")` for a one-character pattern. -/
def removeChar (a : Char) (s : String) : String :=
  ⟨s.data.filter (fun c => !(c = a : Bool))⟩

/-- Python `sep.join(parts)` over a list of strings. -/
def pyJoin (sep : String) : List String → String
  | [] => ""
  | [x] => x
  | x :: rest => x ++ sep ++ pyJoin sep rest

/-- The normalized operation descriptor (the `Operation` dataclass).  The
dynamic fields `operation_id`, `summary` and the parameter names keep the
`Json` type because the source stores whatever values the document carried
there, string or not. -/
structure Operation where
  path : String
  method : String
  operation_id : Json
  summary : Json
  has_request_body : Bool
  path_params : List Json
  query_params : List Json

/-- The recognized HTTP verb set of `parse_operations` (lower case, as the
source compares `method.lower()` against it). -/
def recognizedVerbs : List String :=
  ["get", "post", "put", "patch", "delete", "options", "head"]

/-- The same verb set in the upper-case form descriptors carry. -/
def recognizedUpperVerbs : List String :=
  ["GET", "POST", "PUT", "PATCH", "DELETE", "OPTIONS", "HEAD"]

/-- Line 140 of the source: `isinstance(operation, dict) and "operationId" in operation`,
giving the `operationId` value when it applies. -/
def opIdLookup : Json → Option Json
  | Json.obj kvs => pyLookup kvs "operationId"
  | _ => none

/-- Embedding of `_derive_operation_id` (generator.py lines 139-145).  When
`"operationId"` is present in a mapping operation object its value is
returned verbatim, whatever it is; otherwise an identifier is synthesized
from the method and the path. -/
def _derive_operation_id (operation : Json) (method : String) (path : String) : Json :=
  match opIdLookup operation with
  | some v => v
  | none =>
    let sanitized_path :=
      removeChar '\x7d' (removeChar '\x7b' (replaceChar '/' '_' (stripChar '/' path)))
    let sanitized_path := if sanitized_path = "" then "root" else sanitized_path
    Json.str (pyLower method ++ "_" ++ sanitized_path)

/-- Embedding of `_collect_parameters` (generator.py lines 148-153), fully
materialized (the source generator is consumed eagerly by the two list
comprehensions at lines 41-42).  A missing or falsy `parameters` field is
replaced by the empty list; a truthy non-list value, or a list element that
is not a mapping, makes CPython raise (TypeError / AttributeError), embedded
as `Except.error`. -/
def _collect_parameters (operation : List (String × Json)) : Except String (List (Json × Json)) :=
  let parameters := pyGet operation "parameters"
  let parameters := if pyTruthy parameters then parameters else Json.arr []
  match parameters with
  | Json.arr params =>
    params.mapM (fun param =>
      match param with
      | Json.obj kvs =>
        let name := let v := pyGet kvs "name"; if pyTruthy v then v else Json.str "unknown"
        let location := let v := pyGet kvs "in"; if pyTruthy v then v else Json.str "unknown"
        Except.ok (name, location)
      | _ => Except.error "AttributeError: parameter entry has no attribute get")
  | Json.str _ => Except.error "AttributeError: parameters string item has no attribute get"
  | Json.obj _ => Except.error "AttributeError: parameters dict key has no attribute get"
  | _ => Except.error "TypeError: parameters value is not iterable"

/-- Embedding of line 37: `operation.get("summary") or operation.get("description") or op_id`,
the first truthy value winning. -/
def pySummary (op : List (String × Json)) (op_id : Json) : Json :=
  if pyTruthy (pyGet op "summary") then pyGet op "summary"
  else if pyTruthy (pyGet op "description") then pyGet op "description"
  else op_id

/-- Embedding of the per-operation body of the `parse_operations` loop
(generator.py lines 36-54).  On a non-mapping operation value the source
reaches line 37 (`operation.get("summary")`) and CPython raises
AttributeError, embedded as `Except.error` (line 36, `_derive_operation_id`,
never raises).  In the mapping case only `_collect_parameters` can raise;
the remaining fields are pure. -/
def parseOperationEntry (raw_path : String) (method : String) (operation : Json) :
    Except String Operation :=
  match operation with
  | Json.obj op =>
    match _collect_parameters op with
    | Except.ok params =>
      Except.ok
        { path := raw_path
          method := pyUpper method
          operation_id := _derive_operation_id operation method raw_path
          summary := pySummary op (_derive_operation_id operation method raw_path)
          has_request_body := (pyLookup op "requestBody").isSome
          path_params := (params.filter (fun p => jsonEqStr p.2 "path")).map (fun p => p.1)
          query_params := (params.filter (fun p => jsonEqStr p.2 "query")).map (fun p => p.1) }
    | Except.error e => Except.error e
  | _ => Except.error "AttributeError: operation value has no attribute get"

/-- Inner loop of `parse_operations` over one path's method entries
(generator.py lines 32-54): entries whose lower-cased key is not a
recognized verb are skipped. -/
def parseMethodEntries (raw_path : String) : List (String × Json) → Except String (List Operation)
  | [] => Except.ok []
  | (method, operation) :: rest =>
    if recognizedVerbs.contains (pyLower method) then
      match parseOperationEntry raw_path method operation with
      | Except.ok op => (parseMethodEntries raw_path rest).map (fun ops => op :: ops)
      | Except.error e => Except.error e
    else
      parseMethodEntries raw_path rest

/-- Outer loop of `parse_operations` over the path entries (generator.py
lines 28-54): a path whose value is not a mapping is skipped silently. -/
def parsePathEntries : List (String × Json) → Except String (List Operation)
  | [] => Except.ok []
  | (raw_path, Json.obj methodEntries) :: rest =>
    match parseMethodEntries raw_path methodEntries with
    | Except.ok ops => (parsePathEntries rest).map (fun more => ops ++ more)
    | Except.error e => Except.error e
  | _ :: rest => parsePathEntries rest

/-- Embedding of `parse_operations` (generator.py lines 24-56).  The spec
document itself is a dict (`Dict[str, Any]`); `spec.get("paths", {})` must
itself be a dict for `.items()` to exist, otherwise CPython raises. -/
def parse_operations (spec : List (String × Json)) : Except String (List Operation) :=
  match pyGetD spec "paths" (Json.obj []) with
  | Json.obj pathEntries => parsePathEntries pathEntries
  | _ => Except.error "AttributeError: paths value has no attribute items"


mutual
/-- Python `repr()` of a document value: scalars print as CPython prints
them; containers print in CPython repr style (string elements
single-quoted, without escape processing, which no claim exercises). -/
def pyRepr : Json → String
  | Json.null => "None"
  | Json.bool b => if b then "True" else "False"
  | Json.num n => toString n
  | Json.str s => "\x27" ++ s ++ "\x27"
  | Json.arr xs => "[" ++ pyReprList xs ++ "]"
  | Json.obj kvs => "\x7b" ++ pyReprObj kvs ++ "\x7d"

def pyReprList : List Json → String
  | [] => ""
  | [x] => pyRepr x
  | x :: rest => pyRepr x ++ ", " ++ pyReprList rest

def pyReprObj : List (String × Json) → String
  | [] => ""
  | [(k, v)] => "\x27" ++ k ++ "\x27: " ++ pyRepr v
  | (k, v) :: rest => "\x27" ++ k ++ "\x27: " ++ pyRepr v ++ ", " ++ pyReprObj rest
end

/-- Top-level Python `str(x)` as used by f-string interpolation: a string
interpolates verbatim, anything else via its repr. -/
def pyStr : Json → String
  | Json.str s => s
  | j => pyRepr j

/-- Embedding of `_safe_method_name` (generator.py lines 165-169).
`Char.isAlphanum` models `ch.isalnum()` over the ASCII range the claims
exercise. -/
def _safe_method_name (operation_id : String) : String :=
  let cleaned : String :=
    ⟨operation_id.data.map (fun ch => if ch.isAlphanum ∨ ch = '_' then ch else '_')⟩
  let cleaned :=
    if (match cleaned.data with
        | [] => false
        | c :: _ => c.isDigit) then "op_" ++ cleaned else cleaned
  if cleaned = "" then "unnamed_operation" else cleaned

/-- Dynamic dispatch of `_safe_method_name` on the stored identifier value:
the source function iterates its argument character-wise, so a non-string
identifier makes CPython raise; embedded as `Except.error`. -/
def safeName : Json → Except String String
  | Json.str s => Except.ok (_safe_method_name s)
  | _ => Except.error "TypeError: operation id is not a string"

/-- The strings of a list of stored dynamic values, in order; a non-string
element is a TypeError, as CPython raises for `str.join`. -/
def strListOfValues : List Json → Except String (List String)
  | [] => Except.ok []
  | Json.str s :: rest => (strListOfValues rest).map (fun ss => s :: ss)
  | _ :: _ => Except.error "TypeError: sequence item is not a str"

/-- Python `sep.join(xs)` over stored dynamic values: every element must be
a string, otherwise CPython raises TypeError. -/
def pyJoinValues (sep : String) (xs : List Json) : Except String String :=
  match strListOfValues xs with
  | Except.ok ss => Except.ok (pyJoin sep ss)
  | Except.error e => Except.error e

/-- Embedding of `_build_param_comments` (generator.py lines 156-162): the
two location groups are built in order (path first) and joined with
a semicolon-space; an empty group contributes nothing. -/
def _build_param_comments (operation : Operation) : Except String String :=
  match operation.path_params.isEmpty, operation.query_params.isEmpty with
  | true, true => Except.ok ""
  | false, true =>
    (pyJoinValues ", " operation.path_params).map (fun s => "path: " ++ s)
  | true, false =>
    (pyJoinValues ", " operation.query_params).map (fun s => "query: " ++ s)
  | false, false =>
    match pyJoinValues ", " operation.path_params with
    | Except.ok a =>
      (pyJoinValues ", " operation.query_params).map
        (fun b => "path: " ++ a ++ "; " ++ "query: " ++ b)
    | Except.error e => Except.error e

/-- Embedding of `_render_operation_task` (generator.py lines 97-136): the
lines of one generated task method, ending with one blank separator line. -/
def _render_operation_task (operation : Operation) (weight : Int) :
    Except String (List String) :=
  match safeName operation.operation_id with
  | Except.error e => Except.error e
  | Except.ok method_name =>
    let lines : List String := [
      "    @task(" ++ toString weight ++ ")",
      "    def " ++ method_name ++ "(self) -> None:",
      "        \"\"\"" ++ pyStr operation.summary ++ "\"\"\"",
      "        # TODO: Replace placeholder payloads with schema-aware data"
    ]
    let lines := lines ++
      (if operation.has_request_body then
        ["        payload: Dict[str, Any] = \x7b",
         "            # populate request body using the schema in the OpenAPI document",
         "        \x7d"]
      else
        ["        payload = None"])
    match _build_param_comments operation with
    | Except.error e => Except.error e
    | Except.ok param_comments =>
      let lines := lines ++
        (if param_comments = "" then [] else ["        # Parameters: " ++ param_comments])
      let request_name := operation.method ++ " " ++ operation.path
      let lines := lines ++ [
        "        with self.client.request(",
        "            \"" ++ operation.method ++ "\",",
        "            \"" ++ operation.path ++ "\",",
        "            name=\"" ++ request_name ++ "\",",
        "            json=payload,",
        "            params=\x7b\x7d,",
        "        ) as response:",
        "            response.raise_for_status()",
        "            # TODO: capture response data to chain into subsequent tasks"
      ]
      Except.ok (lines ++ [""])

/-- The string value of `LocustClientType.FAST_HTTP`.  `LocustClientType` is
a `str` enum, so the comparisons in the source are plain string equality. -/
def LocustClientType.FAST_HTTP : String := "fast_http"

/-- The string value of `LocustClientType.REQUESTS`. -/
def LocustClientType.REQUESTS : String := "requests"

/-- The fixed header lines of the generated module (generator.py lines
73-86): imports, class declaration, class docstring (one list element
holding embedded newlines, as in the source), wait-time and host fields. -/
def generateHeaderLines (host : String) (client_type : String) (user_class_name : String) :
    List String :=
  let client_import :=
    if client_type == LocustClientType.FAST_HTTP then "FastHttpUser" else "HttpUser"
  [
    "from typing import Any, Dict",
    "",
    "from locust import HttpUser, FastHttpUser, between, task",
    "",
    "class " ++ user_class_name ++ "(" ++ client_import ++ "):",
    "    \"\"\"\n    Auto-generated skeleton tasks.\n\n    Fill in payloads and sequencing based on your domain logic.\n    You can move validated data between tasks using shared attributes.\n    \"\"\"",
    "    wait_time = between(1, 5)",
    "    host = \"" ++ host ++ "\"",
    ""
  ]

/-- The full `lines` list the source assembles (generator.py lines 73-92):
header, then one task block per descriptor, then the placeholder comment
when no operation was discovered. -/
def generateLines (operations : List Operation) (host : String) (client_type : String)
    (user_class_name : String) (task_weight : Int) : Except String (List String) :=
  match operations.mapM (fun op => _render_operation_task op task_weight) with
  | Except.error e => Except.error e
  | Except.ok taskBlocks =>
    Except.ok (generateHeaderLines host client_type user_class_name ++
      taskBlocks.flatten ++
      (if operations.isEmpty then
        ["    # No operations were discovered in the provided OpenAPI document."]
      else []))

/-- Embedding of `generate_locustfile` (generator.py lines 59-94): parse the
document, assemble the line list and join it with newlines, ending with a
trailing newline. -/
def generate_locustfile (spec : List (String × Json)) (host : String)
    (client_type : String) (user_class_name : String) (task_weight : Int) :
    Except String String :=
  match parse_operations spec with
  | Except.error e => Except.error e
  | Except.ok operations =>
    match generateLines operations host client_type user_class_name task_weight with
    | Except.error e => Except.error e
    | Except.ok lines => Except.ok (pyJoin "\n" lines ++ "\n")

/-- Substring test used to state claims about the generated text. -/
def containsSub (t sub : String) : Bool :=
  t.data.tails.any (fun suffix => sub.data.isPrefixOf suffix)


/-- Lines of a rendering result, the error case giving no lines. -/
def linesOf (r : Except String (List String)) : List String :=
  match r with
  | Except.ok ls => ls
  | Except.error _ => []

/-- An operation entry lacks an explicit identifier: it is either not a
mapping or a mapping without an `"operationId"` key. -/
def opIdAbsent : Json → Bool
  | Json.obj kvs => (pyLookup kvs "operationId").isNone
  | _ => true

/-- Spec-side synthesized identifier, written from the words of claim C4:
lower-cased method, an underscore, then the path with leading and trailing
slashes stripped, internal slashes replaced by underscores and brace
characters removed; the literal `root` when that residue is empty. -/
def claimDerivedId (method : String) (path : String) : String :=
  let residue :=
    removeChar '\x7d' (removeChar '\x7b' (replaceChar '/' '_' (stripChar '/' path)))
  pyLower method ++ "_" ++ (if residue = "" then "root" else residue)

/-- Spec-side parameter-summary text, written from the words of claim C6:
the groups `path: a, b` and `query: c, d` are each present exactly when
non-empty and are joined by a semicolon and space. -/
def claimParamComment (pathNames : List String) (queryNames : List String) : String :=
  pyJoin "; "
    ((if pathNames = [] then [] else ["path: " ++ pyJoin ", " pathNames]) ++
     (if queryNames = [] then [] else ["query: " ++ pyJoin ", " queryNames]))

/-- The document has at least one path entry whose value is a mapping
containing a recognized-verb method key (the hypothesis of claim C5's
non-emptiness part). -/
def hasRecognizedOperation (spec : List (String × Json)) : Bool :=
  match pyGetD spec "paths" (Json.obj []) with
  | Json.obj pathEntries =>
    pathEntries.any (fun pe =>
      match pe.2 with
      | Json.obj methodEntries =>
        methodEntries.any (fun me => recognizedVerbs.contains (pyLower me.1))
      | _ => false)
  | _ => false

/-- A document whose only operation value under a recognized verb is a
string, not a mapping: `\x7b"paths": \x7b"/x": \x7b"get": "oops"\x7d\x7d\x7d`. -/
def c1FailingSpec : List (String × Json) :=
  [("paths", Json.obj [("/x", Json.obj [("get", Json.str "oops")])])]

/-- A document whose single operation carries an explicit but empty
`operationId`. -/
def c2EmptyIdSpec : List (String × Json) :=
  [("paths", Json.obj [("/x", Json.obj [("get", Json.obj [("operationId", Json.str "")])])])]

/-- A well-formed document with an empty path map. -/
def emptyPathsSpec : List (String × Json) := [("paths", Json.obj [])]

/-- The end-to-end scenario-B document of claim C6: path `/items/{item_id}`
with a GET carrying one parameter named `item_id` located in the path. -/
def scenarioBSpec : List (String × Json) :=
  [("paths", Json.obj
    [("/items/\x7bitem_id\x7d", Json.obj
      [("get", Json.obj
        [("summary", Json.str "Get item"),
         ("parameters", Json.arr
           [Json.obj [("name", Json.str "item_id"), ("in", Json.str "path")]])])])])]

/-- The descriptor extraction yields for `scenarioBSpec`. -/
def scenarioBOperation : Operation :=
  { path := "/items/\x7bitem_id\x7d"
    method := "GET"
    operation_id := Json.str "get_items_item_id"
    summary := Json.str "Get item"
    has_request_body := false
    path_params := [Json.str "item_id"]
    query_params := [] }

/-- A small well-formed document used to instantiate proved theorems at a
concrete input: `/items` with a GET whose `operationId` is `listItems`. -/
def witnessSpec : List (String × Json) :=
  [("paths", Json.obj [("/items", Json.obj [("get", Json.obj [("operationId", Json.str "listItems")])])])]

/-- The descriptor list extraction yields for `witnessSpec`. -/
def witnessOps : List Operation :=
  [{ path := "/items"
     method := "GET"
     operation_id := Json.str "listItems"
     summary := Json.str "listItems"
     has_request_body := false
     path_params := []
     query_params := [] }]

/-- The task lines rendered for the scenario-B descriptor with weight 1. -/
def scenarioBLines : List String := linesOf (_render_operation_task scenarioBOperation 1)

/-- The placeholder comment the generator emits when no operation was
discovered (generator.py line 92). -/
def noOperationsLine : String :=
  "    # No operations were discovered in the provided OpenAPI document."

theorem char_toNat_ofNat_of_lt {n : Nat} (h1 : n < 55296) : (Char.ofNat n).toNat = n := by
  rw [Char.ofNat, dif_pos (Or.inl h1)]
  simp [Char.ofNatAux, Char.toNat, UInt32.toNat, BitVec.toNat_ofNatLt]

theorem charUpper_of_charLower {c l : Char} (hl : 'a' ≤ l ∧ l ≤ 'z')
    (h : charLower c = l) : charUpper c = Char.ofNat (l.toNat - 32) := by
  unfold charLower at h
  by_cases hc : 'A' ≤ c ∧ c ≤ 'Z'
  · rw [if_pos hc] at h
    have hc1 : 65 ≤ c.toNat := hc.1
    have hc2 : c.toNat ≤ 90 := hc.2
    have hv : c.toNat + 32 < 55296 := by omega
    have hln : l.toNat = c.toNat + 32 := by rw [← h, char_toNat_ofNat_of_lt hv]
    have hcu : charUpper c = c := by
      unfold charUpper
      rw [if_neg]
      intro hcc
      have h97 : 97 ≤ c.toNat := hcc.1
      omega
    rw [hcu, hln]
    have h32 : c.toNat + 32 - 32 = c.toNat := by omega
    rw [h32, Char.ofNat_toNat]
  · rw [if_neg hc] at h
    subst h
    unfold charUpper
    rw [if_pos hl]

theorem mapUpper_of_mapLower (xs : List Char) :
    ∀ ys : List Char, xs.map charLower = ys →
      (∀ y ∈ ys, 'a' ≤ y ∧ y ≤ 'z') →
      xs.map charUpper = ys.map (fun y => Char.ofNat (y.toNat - 32)) := by
  induction xs with
  | nil =>
    intro ys h _
    simp only [List.map_nil] at h
    subst h
    simp
  | cons x xs ih =>
    intro ys h hys
    cases ys with
    | nil => simp at h
    | cons y ys2 =>
      simp only [List.map_cons, List.cons.injEq] at h
      have hx := charUpper_of_charLower (hys y (by simp)) h.1
      simp only [List.map_cons, hx]
      rw [ih ys2 h.2 (fun z hz => hys z (by simp [hz]))]

theorem pyUpper_eq_of_pyLower_eq {m w : String} (h : pyLower m = w)
    (hw : ∀ y ∈ w.data, 'a' ≤ y ∧ y ≤ 'z') :
    pyUpper m = ⟨w.data.map (fun y => Char.ofNat (y.toNat - 32))⟩ := by
  have hd : m.data.map charLower = w.data := by
    have h2 := congrArg String.data h
    simpa [pyLower] using h2
  unfold pyUpper
  rw [mapUpper_of_mapLower m.data w.data hd hw]

theorem upperVerb_of_lowerVerb {m : String}
    (h : recognizedVerbs.contains (pyLower m) = true) :
    recognizedUpperVerbs.contains (pyUpper m) = true := by
  have hmem : pyLower m = "get" ∨ pyLower m = "post" ∨ pyLower m = "put" ∨
      pyLower m = "patch" ∨ pyLower m = "delete" ∨ pyLower m = "options" ∨
      pyLower m = "head" := by
    simpa [recognizedVerbs] using h
  rcases hmem with h1 | h1 | h1 | h1 | h1 | h1 | h1 <;>
    rw [pyUpper_eq_of_pyLower_eq h1 (by decide)] <;> decide

theorem parseOperationEntry_method {p m : String} {o : Json} {op : Operation}
    (h : parseOperationEntry p m o = Except.ok op) : op.method = pyUpper m := by
  cases o with
  | obj entries =>
    simp only [parseOperationEntry] at h
    split at h
    · injection h with h'
      subst h'
      rfl
    · exact Except.noConfusion h
  | null => simp [parseOperationEntry] at h
  | bool b => simp [parseOperationEntry] at h
  | num n => simp [parseOperationEntry] at h
  | str s => simp [parseOperationEntry] at h
  | arr xs => simp [parseOperationEntry] at h

theorem parseMethodEntries_method_mem {p : String} (mes : List (String × Json)) :
    ∀ ops : List Operation, parseMethodEntries p mes = Except.ok ops →
      ∀ op ∈ ops, recognizedUpperVerbs.contains op.method = true := by
  induction mes with
  | nil =>
    intro ops h op hop
    unfold parseMethodEntries at h
    injection h with h'
    subst h'
    cases hop
  | cons me rest ih =>
    obtain ⟨method, operation⟩ := me
    intro ops h op hop
    unfold parseMethodEntries at h
    by_cases hr : recognizedVerbs.contains (pyLower method) = true
    · rw [if_pos hr] at h
      cases he : parseOperationEntry p method operation with
      | ok op' =>
        rw [he] at h
        cases hrec : parseMethodEntries p rest with
        | ok ops' =>
          rw [hrec] at h
          simp only [Except.map] at h
          injection h with h'
          subst h'
          cases hop with
          | head =>
            rw [parseOperationEntry_method he]
            exact upperVerb_of_lowerVerb hr
          | tail _ hmem => exact ih ops' hrec op hmem
        | error e =>
          rw [hrec] at h
          exact Except.noConfusion h
      | error e =>
        rw [he] at h
        exact Except.noConfusion h
    · rw [if_neg hr] at h
      exact ih ops h op hop

theorem parseMethodEntries_ne_nil {p : String} (mes : List (String × Json)) :
    ∀ ops : List Operation, parseMethodEntries p mes = Except.ok ops →
      (mes.any fun me => recognizedVerbs.contains (pyLower me.1)) = true → ops ≠ [] := by
  induction mes with
  | nil =>
    intro ops h hx
    simp at hx
  | cons me rest ih =>
    obtain ⟨method, operation⟩ := me
    intro ops h hx
    unfold parseMethodEntries at h
    by_cases hr : recognizedVerbs.contains (pyLower method) = true
    · rw [if_pos hr] at h
      cases he : parseOperationEntry p method operation with
      | ok op' =>
        rw [he] at h
        cases hrec : parseMethodEntries p rest with
        | ok ops' =>
          rw [hrec] at h
          simp only [Except.map] at h
          injection h with h'
          subst h'
          simp
        | error e =>
          rw [hrec] at h
          exact Except.noConfusion h
      | error e =>
        rw [he] at h
        exact Except.noConfusion h
    · rw [if_neg hr] at h
      have hr0 : recognizedVerbs.contains (pyLower method) = false :=
        Bool.eq_false_iff.mpr hr
      apply ih ops h
      simp only [List.any_cons] at hx
      rw [hr0, Bool.false_or] at hx
      exact hx

theorem parsePathEntries_method_mem (pes : List (String × Json)) :
    ∀ ops : List Operation, parsePathEntries pes = Except.ok ops →
      ∀ op ∈ ops, recognizedUpperVerbs.contains op.method = true := by
  induction pes with
  | nil =>
    intro ops h op hop
    simp only [parsePathEntries] at h
    injection h with h'
    subst h'
    cases hop
  | cons pe rest ih =>
    obtain ⟨raw_path, methods⟩ := pe
    intro ops h op hop
    cases methods with
    | obj methodEntries =>
      simp only [parsePathEntries] at h
      cases hm : parseMethodEntries raw_path methodEntries with
      | ok ops1 =>
        rw [hm] at h
        cases hrec : parsePathEntries rest with
        | ok ops2 =>
          rw [hrec] at h
          simp only [Except.map] at h
          injection h with h'
          subst h'
          rcases List.mem_append.mp hop with hmem | hmem
          · exact parseMethodEntries_method_mem methodEntries ops1 hm op hmem
          · exact ih ops2 hrec op hmem
        | error e =>
          rw [hrec] at h
          simp only [Except.map] at h
          exact Except.noConfusion h
      | error e =>
        rw [hm] at h
        exact Except.noConfusion h
    | null => exact ih ops h op hop
    | bool b => exact ih ops h op hop
    | num n => exact ih ops h op hop
    | str s => exact ih ops h op hop
    | arr xs => exact ih ops h op hop

theorem parsePathEntries_ne_nil (pes : List (String × Json)) :
    ∀ ops : List Operation, parsePathEntries pes = Except.ok ops →
      (pes.any fun pe =>
        match pe.2 with
        | Json.obj methodEntries =>
          methodEntries.any (fun me => recognizedVerbs.contains (pyLower me.1))
        | _ => false) = true → ops ≠ [] := by
  induction pes with
  | nil =>
    intro ops h hx
    simp at hx
  | cons pe rest ih =>
    obtain ⟨raw_path, methods⟩ := pe
    intro ops h hx
    cases methods with
    | obj methodEntries =>
      simp only [parsePathEntries] at h
      simp only [List.any_cons] at hx
      cases hm : parseMethodEntries raw_path methodEntries with
      | ok ops1 =>
        rw [hm] at h
        cases hrec : parsePathEntries rest with
        | ok ops2 =>
          rw [hrec] at h
          simp only [Except.map] at h
          injection h with h'
          subst h'
          rcases Bool.or_eq_true_iff.mp hx with hx1 | hx2
          · have h1 : ops1 ≠ [] :=
              parseMethodEntries_ne_nil methodEntries ops1 hm (by exact hx1)
            intro hcon
            exact h1 (List.append_eq_nil.mp hcon).1
          · have h2 : ops2 ≠ [] := ih ops2 hrec hx2
            intro hcon
            exact h2 (List.append_eq_nil.mp hcon).2
        | error e =>
          rw [hrec] at h
          simp only [Except.map] at h
          exact Except.noConfusion h
      | error e =>
        rw [hm] at h
        exact Except.noConfusion h
    | null =>
      simp only [List.any_cons, Bool.false_or] at hx
      exact ih ops h hx
    | bool b =>
      simp only [List.any_cons, Bool.false_or] at hx
      exact ih ops h hx
    | num n =>
      simp only [List.any_cons, Bool.false_or] at hx
      exact ih ops h hx
    | str s =>
      simp only [List.any_cons, Bool.false_or] at hx
      exact ih ops h hx
    | arr xs =>
      simp only [List.any_cons, Bool.false_or] at hx
      exact ih ops h hx

/-- C5: every descriptor `parse_operations` returns carries an upper-case
method drawn from the seven recognized verbs (entries with other methods
produce no descriptor), and whenever some path entry is a mapping holding at
least one recognized-verb key, the returned sequence is non-empty. -/
theorem c5_methods_recognized_and_nonempty (spec : List (String × Json))
    (ops : List Operation) (h : parse_operations spec = Except.ok ops) :
    (∀ op ∈ ops, recognizedUpperVerbs.contains op.method = true) ∧
    (hasRecognizedOperation spec = true → ops ≠ []) := by
  unfold parse_operations at h
  unfold hasRecognizedOperation
  cases hp : pyGetD spec "paths" (Json.obj []) with
  | obj pathEntries =>
    rw [hp] at h
    exact ⟨parsePathEntries_method_mem pathEntries ops h,
           fun hx => parsePathEntries_ne_nil pathEntries ops h (by exact hx)⟩
  | null => rw [hp] at h; exact Except.noConfusion h
  | bool b => rw [hp] at h; exact Except.noConfusion h
  | num n => rw [hp] at h; exact Except.noConfusion h
  | str s => rw [hp] at h; exact Except.noConfusion h
  | arr xs => rw [hp] at h; exact Except.noConfusion h

/-- Witness instantiating `c5_methods_recognized_and_nonempty` at a concrete
document that has one recognized GET operation. -/
theorem c5_methods_recognized_and_nonempty_witness : witnessOps ≠ [] :=
  (c5_methods_recognized_and_nonempty witnessSpec witnessOps (by rfl)).2 (by rfl)

/-- C1: the claim says extraction never raises for malformed per-operation
data, explicitly including an operation value that is not a mapping.  On
such a document the source reaches `operation.get("summary")` (generator.py
line 37) without the isinstance guard that `_derive_operation_id` has, and
CPython raises AttributeError; the embedding returns the corresponding
error value instead of a descriptor list. -/
theorem c1_nonmapping_operation_raises :
    parse_operations c1FailingSpec =
      Except.error "AttributeError: operation value has no attribute get" := by
  rfl

/-- C2 counterexample: a present-but-empty `operationId` field is taken
verbatim, so the produced descriptor's `operation_id` is the empty string,
refuting the claim that every descriptor's `operation_id` is non-empty. -/
theorem c2_empty_operation_id_counterexample :
    parse_operations c2EmptyIdSpec =
      Except.ok [{ path := "/x", method := "GET", operation_id := Json.str "",
                   summary := Json.str "", has_request_body := false,
                   path_params := [], query_params := [] }] := by
  rfl

theorem append_underscore_ne_empty (a b : String) : (a ++ "_" ++ b) ≠ "" := by
  intro hcon
  have h2 := congrArg String.data hcon
  simp [String.data_append] at h2

/-- C2 amended: when the identifier field is present its value — even the
empty string — is used verbatim with no sanitization at extraction time;
when it is absent, the identifier synthesized from method and path is a
non-empty string. -/
theorem c2_operation_id_amended :
    (∀ (kvs : List (String × Json)) (m p : String) (v : Json),
       pyLookup kvs "operationId" = some v →
       _derive_operation_id (Json.obj kvs) m p = v) ∧
    (∀ (o : Json) (m p : String), opIdAbsent o = true →
       ∃ t : String, _derive_operation_id o m p = Json.str t ∧ t ≠ "") := by
  constructor
  · intro kvs m p v hv
    simp only [_derive_operation_id, opIdLookup, hv]
  · intro o m p habs
    cases o with
    | obj kvs =>
      simp only [opIdAbsent, Option.isNone_iff_eq_none] at habs
      simp only [_derive_operation_id, opIdLookup, habs]
      exact ⟨_, rfl, append_underscore_ne_empty _ _⟩
    | null => exact ⟨_, rfl, append_underscore_ne_empty _ _⟩
    | bool b => exact ⟨_, rfl, append_underscore_ne_empty _ _⟩
    | num n => exact ⟨_, rfl, append_underscore_ne_empty _ _⟩
    | str s => exact ⟨_, rfl, append_underscore_ne_empty _ _⟩
    | arr xs => exact ⟨_, rfl, append_underscore_ne_empty _ _⟩

/-- Witness instantiating both parts of `c2_operation_id_amended` at
concrete inputs. -/
theorem c2_operation_id_amended_witness :
    _derive_operation_id (Json.obj [("operationId", Json.str "givenId")]) "get" "/x" =
      Json.str "givenId" ∧
    (∃ t : String, _derive_operation_id Json.null "get" "/" = Json.str t ∧ t ≠ "") :=
  ⟨c2_operation_id_amended.1 [("operationId", Json.str "givenId")] "get" "/x"
      (Json.str "givenId") (by rfl),
   c2_operation_id_amended.2 Json.null "get" "/" (by rfl)⟩

set_option maxRecDepth 16384 in
/-- C3 counterexample: with the unrecognized flavor value `banana` the
generated class header inherits from `HttpUser`, not from the claimed
`FastHttpUser` default. -/
theorem c3_unrecognized_flavor_counterexample :
    (generate_locustfile emptyPathsSpec "https://h" "banana" "GeneratedUser" 1).map
      (fun t => (containsSub t "class GeneratedUser(HttpUser):",
                 containsSub t "(FastHttpUser):")) = Except.ok (true, false) := by
  rfl

/-- C3 amended: the synthesizer recognizes exactly the two flavor values;
any value other than `fast_http` — including every unrecognized value —
behaves, without error, exactly like the standard `requests` flavor, whose
class header uses the HttpUser base.  The fast-transport variant is
selected only by `fast_http` itself. -/
theorem c3_flavor_fallback_amended (spec : List (String × Json)) (host : String)
    (client_type user_class_name : String) (task_weight : Int)
    (h : client_type ≠ "fast_http") :
    generate_locustfile spec host client_type user_class_name task_weight =
      generate_locustfile spec host LocustClientType.REQUESTS user_class_name task_weight := by
  have hb : (client_type == "fast_http") = false := beq_eq_false_iff_ne.mpr h
  have hrq : (("requests" : String) == "fast_http") = false := by decide
  simp only [generate_locustfile, generateLines, generateHeaderLines,
    LocustClientType.REQUESTS, LocustClientType.FAST_HTTP, hb, hrq,
    Bool.false_eq_true, if_false]

/-- Witness instantiating `c3_flavor_fallback_amended` at the flavor value
`banana`. -/
theorem c3_flavor_fallback_amended_witness :
    generate_locustfile emptyPathsSpec "https://h" "banana" "GeneratedUser" 1 =
      generate_locustfile emptyPathsSpec "https://h" LocustClientType.REQUESTS
        "GeneratedUser" 1 :=
  c3_flavor_fallback_amended emptyPathsSpec "https://h" "banana" "GeneratedUser" 1
    (by decide)

/-- C4: for every operation entry lacking an explicit identifier, the
derived identifier equals the claim's formula — lower-cased method, an
underscore, and the stripped/underscored/brace-free path residue, `root`
when empty — and the claim's two examples hold. -/
theorem c4_synthesized_operation_id (o : Json) (m p : String)
    (habs : opIdAbsent o = true) :
    _derive_operation_id o m p = Json.str (claimDerivedId m p) ∧
    _derive_operation_id (Json.obj []) "GET" "/items/\x7bitem_id\x7d" =
      Json.str "get_items_item_id" ∧
    _derive_operation_id (Json.obj []) "GET" "/" = Json.str "get_root" := by
  refine ⟨?_, by rfl, by rfl⟩
  cases o with
  | obj kvs =>
    simp only [opIdAbsent, Option.isNone_iff_eq_none] at habs
    simp only [_derive_operation_id, opIdLookup, habs]
    rfl
  | null => rfl
  | bool b => rfl
  | num n => rfl
  | str s => rfl
  | arr xs => rfl

/-- Witness instantiating `c4_synthesized_operation_id` at the claim's
example input. -/
theorem c4_synthesized_operation_id_witness :
    _derive_operation_id (Json.obj []) "GET" "/items/\x7bitem_id\x7d" =
      Json.str (claimDerivedId "GET" "/items/\x7bitem_id\x7d") :=
  (c4_synthesized_operation_id (Json.obj []) "GET" "/items/\x7bitem_id\x7d" (by rfl)).1

/-- C7: generation is deterministic — two invocations with equal documents
and equal options (host, flavor, class name, weight) return byte-identical
text; the function draws on nothing besides its arguments. -/
theorem c7_generate_deterministic (s1 s2 : List (String × Json)) (h1 h2 : String)
    (f1 f2 : String) (u1 u2 : String) (w1 w2 : Int)
    (hs : s1 = s2) (hh : h1 = h2) (hf : f1 = f2) (hu : u1 = u2) (hw : w1 = w2) :
    generate_locustfile s1 h1 f1 u1 w1 = generate_locustfile s2 h2 f2 u2 w2 := by
  subst hs hh hf hu hw
  rfl

/-- Witness instantiating `c7_generate_deterministic` at concrete inputs. -/
theorem c7_generate_deterministic_witness :
    generate_locustfile witnessSpec "https://api.example.com" "fast_http"
        "GeneratedUser" 1 =
      generate_locustfile witnessSpec "https://api.example.com" "fast_http"
        "GeneratedUser" 1 :=
  c7_generate_deterministic witnessSpec witnessSpec "https://api.example.com"
    "https://api.example.com" "fast_http" "fast_http" "GeneratedUser" "GeneratedUser"
    1 1 rfl rfl rfl rfl rfl

theorem mk_cons_ne_empty (c : Char) (l : List Char) : (⟨c :: l⟩ : String) ≠ "" := by
  intro h
  have h2 := congrArg String.data h
  simp at h2

theorem append_cons_ne_empty (a : String) (x : Char) (l : List Char) :
    (a ++ ⟨x :: l⟩) ≠ "" := by
  intro h
  have h2 := congrArg String.data h
  simp [String.data_append] at h2

theorem clean_chars (l : List Char) :
    ∀ x ∈ l.map (fun ch => if ch.isAlphanum ∨ ch = '_' then ch else '_'),
      x.isAlphanum = true ∨ x = '_' := by
  intro x hx
  rcases List.mem_map.mp hx with ⟨a, _, ha⟩
  by_cases hcond : a.isAlphanum = true ∨ a = '_'
  · rw [← ha, if_pos hcond]
    exact hcond
  · rw [← ha, if_neg hcond]
    right
    rfl

theorem safe_fixed_data (c : Char) (cs : List Char)
    (h2 : ∀ x ∈ c :: cs, x.isAlphanum = true ∨ x = '_')
    (h3 : c.isDigit = false) :
    _safe_method_name ⟨c :: cs⟩ = ⟨c :: cs⟩ := by
  have hmap : (c :: cs).map (fun ch => if ch.isAlphanum ∨ ch = '_' then ch else '_') =
      c :: cs := by
    have h4 : (c :: cs).map (fun ch => if ch.isAlphanum ∨ ch = '_' then ch else '_') =
        (c :: cs).map id :=
      List.map_congr_left (fun a ha => by
        rcases h2 a ha with hA | hU
        · simp [hA]
        · simp [hU])
    simpa using h4
  simp only [_safe_method_name, hmap, h3, Bool.false_eq_true, if_false]
  rw [if_neg (mk_cons_ne_empty c cs)]

theorem safe_fixed (s : String) (h1 : s ≠ "")
    (h2 : ∀ x ∈ s.data, x.isAlphanum = true ∨ x = '_')
    (h3 : match s.data with | [] => True | x :: _ => x.isDigit = false) :
    _safe_method_name s = s := by
  cases hd : s.data with
  | nil => exact absurd (String.ext (by rw [hd])) h1
  | cons c cs =>
    have hs : s = ⟨c :: cs⟩ := String.ext (by rw [hd])
    rw [hd] at h2
    rw [hd] at h3
    rw [hs]
    exact safe_fixed_data c cs h2 h3

theorem safe_output_good (s : String) :
    _safe_method_name s = "unnamed_operation" ∨
    (_safe_method_name s ≠ "" ∧
     (∀ x ∈ (_safe_method_name s).data, x.isAlphanum = true ∨ x = '_') ∧
     (match (_safe_method_name s).data with | [] => True | x :: _ => x.isDigit = false)) := by
  cases hd : s.data with
  | nil =>
    left
    have hs : s = "" := String.ext (by rw [hd])
    rw [hs]
    rfl
  | cons c cs =>
    right
    have hs : s = ⟨c :: cs⟩ := String.ext (by rw [hd])
    rw [hs]
    by_cases hdig : ((if c.isAlphanum ∨ c = '_' then c else '_').isDigit) = true
    · have ht : _safe_method_name ⟨c :: cs⟩ =
          "op_" ++ ⟨(c :: cs).map (fun ch => if ch.isAlphanum ∨ ch = '_' then ch else '_')⟩ := by
        simp only [_safe_method_name, List.map_cons, hdig, if_true]
        rw [if_neg (append_cons_ne_empty _ _ _)]
      rw [ht]
      refine ⟨append_cons_ne_empty _ _ _, ?_, ?_⟩
      · intro x hx
        rw [String.data_append] at hx
        rcases List.mem_append.mp hx with hmem | hmem
        · have : x = 'o' ∨ x = 'p' ∨ x = '_' := by
            simpa using hmem
          rcases this with h | h | h <;> rw [h] <;> simp
        · exact clean_chars (c :: cs) x (by simpa using hmem)
      · rw [String.data_append]
        simp
    · have hdig' : ((if c.isAlphanum ∨ c = '_' then c else '_').isDigit) = false :=
        Bool.eq_false_iff.mpr hdig
      have ht : _safe_method_name ⟨c :: cs⟩ =
          ⟨(c :: cs).map (fun ch => if ch.isAlphanum ∨ ch = '_' then ch else '_')⟩ := by
        simp only [_safe_method_name, List.map_cons, hdig', Bool.false_eq_true, if_false]
        rw [if_neg (mk_cons_ne_empty _ _)]
      rw [ht]
      refine ⟨mk_cons_ne_empty _ _, ?_, ?_⟩
      · intro x hx
        exact clean_chars (c :: cs) x (by simpa using hx)
      · simpa using hdig'

theorem safe_idem (s : String) :
    _safe_method_name (_safe_method_name s) = _safe_method_name s := by
  rcases safe_output_good s with h | ⟨h1, h2, h3⟩
  · rw [h]
    rfl
  · exact safe_fixed _ h1 h2 h3

/-- C8: the identifier sanitizer is idempotent — a non-empty string of
alphanumeric and underscore characters that does not start with a digit is
returned unchanged, and applying the sanitizer twice to any string gives
the same result as applying it once. -/
theorem c8_safe_method_name_idempotent :
    (∀ s : String, s ≠ "" →
       (∀ x ∈ s.data, x.isAlphanum = true ∨ x = '_') →
       (match s.data with | [] => True | x :: _ => x.isDigit = false) →
       _safe_method_name s = s) ∧
    (∀ s : String, _safe_method_name (_safe_method_name s) = _safe_method_name s) :=
  ⟨safe_fixed, safe_idem⟩

/-- Witness instantiating both parts of `c8_safe_method_name_idempotent` at
concrete strings. -/
theorem c8_safe_method_name_idempotent_witness :
    _safe_method_name "get_items" = "get_items" ∧
    _safe_method_name (_safe_method_name "9bad id!") = _safe_method_name "9bad id!" :=
  ⟨c8_safe_method_name_idempotent.1 "get_items" (by decide) (by decide) (by decide),
   c8_safe_method_name_idempotent.2 "9bad id!"⟩

theorem append_newline_ne_empty (a : String) : (a ++ "\n") ≠ "" := by
  intro hcon
  have h2 := congrArg String.data hcon
  simp [String.data_append] at h2

/-- C9: when extraction yields zero descriptors, generation still succeeds
and returns the non-empty document made of the fixed header followed by the
explanatory placeholder comment; the placeholder is among the emitted lines
and no emitted line is a task decorator or a method definition. -/
theorem c9_empty_operations_placeholder (spec : List (String × Json)) (host : String)
    (client_type user_class_name : String) (task_weight : Int)
    (h : parse_operations spec = Except.ok []) :
    generate_locustfile spec host client_type user_class_name task_weight =
      Except.ok (pyJoin "\n" (generateHeaderLines host client_type user_class_name ++
        [noOperationsLine]) ++ "\n") ∧
    noOperationsLine ∈ generateHeaderLines host client_type user_class_name ++
      [noOperationsLine] ∧
    (∀ l ∈ generateHeaderLines host client_type user_class_name ++ [noOperationsLine],
      ("    @task(".data.isPrefixOf l.data) = false ∧
      ("    def ".data.isPrefixOf l.data) = false) ∧
    pyJoin "\n" (generateHeaderLines host client_type user_class_name ++
      [noOperationsLine]) ++ "\n" ≠ "" := by
  refine ⟨?_, by simp, ?_, append_newline_ne_empty _⟩
  · unfold generate_locustfile
    rw [h]
    rfl
  · intro l hl
    simp only [generateHeaderLines, noOperationsLine, List.cons_append,
      List.nil_append] at hl
    fin_cases hl <;>
      exact ⟨by first | decide | simp [String.data_append, List.isPrefixOf],
             by first | decide | simp [String.data_append, List.isPrefixOf]⟩

/-- Witness instantiating `c9_empty_operations_placeholder` at a document
with an empty path map. -/
theorem c9_empty_operations_placeholder_witness :
    generate_locustfile emptyPathsSpec "https://h" "fast_http" "GeneratedUser" 1 =
      Except.ok (pyJoin "\n" (generateHeaderLines "https://h" "fast_http" "GeneratedUser" ++
        [noOperationsLine]) ++ "\n") :=
  (c9_empty_operations_placeholder emptyPathsSpec "https://h" "fast_http" "GeneratedUser" 1
    (by rfl)).1

/-- C10: whenever a task renders successfully, a string summary appears
character-for-character — with no escaping or sanitization — as the
docstring line of the generated method, while only the method name goes
through the identifier sanitizer. -/
theorem c10_summary_verbatim (op : Operation) (w : Int) (s i : String)
    (lines : List String)
    (hsum : op.summary = Json.str s) (hid : op.operation_id = Json.str i)
    (h : _render_operation_task op w = Except.ok lines) :
    ("        \"\"\"" ++ s ++ "\"\"\"") ∈ lines ∧
    ("    def " ++ _safe_method_name i ++ "(self) -> None:") ∈ lines := by
  unfold _render_operation_task at h
  rw [hid] at h
  simp only [safeName] at h
  cases hb : _build_param_comments op with
  | ok pc =>
    rw [hb] at h
    injection h with h'
    subst h'
    rw [hsum]
    constructor <;> simp [pyStr]
  | error e =>
    rw [hb] at h
    exact Except.noConfusion h

/-- Witness instantiating `c10_summary_verbatim` at the scenario-B
descriptor. -/
theorem c10_summary_verbatim_witness :
    ("        \"\"\"" ++ "Get item" ++ "\"\"\"") ∈ scenarioBLines ∧
    ("    def " ++ _safe_method_name "get_items_item_id" ++ "(self) -> None:") ∈
      scenarioBLines :=
  c10_summary_verbatim scenarioBOperation 1 "Get item" "get_items_item_id"
    scenarioBLines (by rfl) (by rfl) (by rfl)

theorem strListOfValues_strs (pn : List String) :
    strListOfValues (pn.map Json.str) = Except.ok pn := by
  induction pn with
  | nil => rfl
  | cons a rest ih =>
    simp only [List.map_cons, strListOfValues, ih, Except.map]

theorem pyJoinValues_strs (sep : String) (pn : List String) :
    pyJoinValues sep (pn.map Json.str) = Except.ok (pyJoin sep pn) := by
  unfold pyJoinValues
  rw [strListOfValues_strs]

theorem pyJoinValues_strs_cons (sep : String) (b : String) (qs : List String) :
    pyJoinValues sep (Json.str b :: qs.map Json.str) = Except.ok (pyJoin sep (b :: qs)) := by
  rw [← List.map_cons]
  exact pyJoinValues_strs sep (b :: qs)

set_option maxRecDepth 16384 in
/-- C6: scenario B — extracting `/items/{item_id}` whose GET has one
parameter named `item_id` located in the path yields
`path_params = ["item_id"]` and `query_params = []`; the parameter summary
is exactly `path: item_id`, the rendered task body carries that single
comment line and mentions no `query:` segment anywhere; in general the two
groups render as `path: a, b` / `query: c, d` joined by a semicolon-space,
and the comment line is omitted entirely when both groups are empty. -/
theorem c6_parameter_comment :
    parse_operations scenarioBSpec = Except.ok [scenarioBOperation] ∧
    scenarioBOperation.path_params = [Json.str "item_id"] ∧
    scenarioBOperation.query_params = [] ∧
    _build_param_comments scenarioBOperation = Except.ok "path: item_id" ∧
    "        # Parameters: path: item_id" ∈ scenarioBLines ∧
    scenarioBLines.all (fun l => !(containsSub l "query:")) = true ∧
    (∀ (pn qn : List String) (pth m : String) (oid sm : Json) (hrb : Bool),
      _build_param_comments ⟨pth, m, oid, sm, hrb, pn.map Json.str, qn.map Json.str⟩ =
        Except.ok (claimParamComment pn qn)) ∧
    (∀ (pth m : String) (oid sm : Json) (hrb : Bool) (w : Int),
      (linesOf (_render_operation_task ⟨pth, m, oid, sm, hrb, [], []⟩ w)).all
        (fun l => !("        # Parameters: ".data.isPrefixOf l.data)) = true) := by
  refine ⟨by rfl, by rfl, by rfl, by rfl, by decide, by rfl, ?_, ?_⟩
  · intro pn qn pth m oid sm hrb
    cases pn with
    | nil =>
      cases qn with
      | nil => rfl
      | cons b qs =>
        unfold _build_param_comments claimParamComment
        simp only [List.map_nil, List.map_cons, List.isEmpty_nil, List.isEmpty_cons]
        rw [pyJoinValues_strs_cons]
        simp only [Except.map]
        exact congrArg Except.ok (String.ext (by simp [pyJoin, String.data_append]))
    | cons a ps =>
      cases qn with
      | nil =>
        unfold _build_param_comments claimParamComment
        simp only [List.map_nil, List.map_cons, List.isEmpty_nil, List.isEmpty_cons]
        rw [pyJoinValues_strs_cons]
        simp only [Except.map]
        exact congrArg Except.ok (String.ext (by simp [pyJoin, String.data_append]))
      | cons b qs =>
        unfold _build_param_comments claimParamComment
        simp only [List.map_cons, List.isEmpty_cons]
        rw [pyJoinValues_strs_cons, pyJoinValues_strs_cons]
        simp only [Except.map]
        exact congrArg Except.ok (String.ext (by simp [pyJoin, String.data_append]))
  · intro pth m oid sm hrb w
    cases oid with
    | str i =>
      unfold _render_operation_task
      simp only [safeName]
      have hb : _build_param_comments ⟨pth, m, Json.str i, sm, hrb, [], []⟩ =
          Except.ok "" := rfl
      rw [hb]
      cases hrb <;>
        simp [linesOf, String.data_append, List.isPrefixOf, List.all]
    | null => rfl
    | bool b => rfl
    | num n => rfl
    | arr xs => rfl
    | obj kvs => rfl
